import Mathlib

/-!
Verification of the Luau language-server adapter
(`solidlsp/language_servers/luau_lsp.py`).

Shallow embedding of the adapter class `LuauLanguageServer`.  Effectful Python
code is modelled as pure functions over an explicit environment `Env` that
records the outcome of every external observation the code makes
(`shutil.which`, `platform.system()`, `platform.machine()`, `Path.exists`,
HTTP success/failure, the first `rglob` hit after extraction).  Functions that
perform HTTP requests additionally return the ordered trace of requests or
fetch events they issue, so that claims about *when* a request happens are
statable.  Python string paths are joined with "/" (standing for the
platform's path join); Python truthiness of an optional string
(`if not luau_lsp_path:`) is modelled by `optTruthy`.  Fallible Python code
(functions that may raise) returns `Except String _`.
-/

namespace LuauLsp

/-- Pin to a known stable release (`LUAU_LSP_VERSION = "1.57.1"` in the source). -/
def LUAU_LSP_VERSION : String := "1.57.1"

/-- Roblox type definitions CDN URL (`ROBLOX_TYPES_URL`). -/
def ROBLOX_TYPES_URL : String :=
  "https://luau-lsp.pages.dev/type-definitions/globalTypes.PluginSecurity.d.luau"

/-- Roblox API docs CDN URL (`ROBLOX_DOCS_URL`). -/
def ROBLOX_DOCS_URL : String := "https://luau-lsp.pages.dev/api-docs/en-us.json"

/-- Environment: one snapshot of every external observation the adapter makes. -/
structure Env where
  /-- Result of `shutil.which("luau-lsp")`: `none` models Python `None`. -/
  which : Option String
  /-- `Path.home()` as a string. -/
  home : String
  /-- `platform.system()`. -/
  system : String
  /-- `platform.machine()` (before lowering). -/
  machine : String
  /-- `Path.exists()` oracle, per path string. -/
  pathExists : String → Bool
  /-- Whether `requests.get(url)` (+ `raise_for_status`, write) succeeds, per URL. -/
  httpGetOk : String → Bool
  /-- First candidate produced by `install_dir.rglob(binary_name)`, if any. -/
  rglobFirst : Option String

/-- Python truthiness of a `str | None` value: `None` and `""` are falsy. -/
def optTruthy : Option String → Bool
  | none => false
  | some s => !(s == "")

/-- Python lowercasing (`str.lower()`), character-wise. -/
def py_lower (s : String) : String := String.mk (s.data.map Char.toLower)

/-- Is `needle` a prefix of the character list `hay`? -/
def isPrefixCh : List Char → List Char → Bool
  | [], _ => true
  | _ :: _, [] => false
  | a :: as, b :: bs => a == b && isPrefixCh as bs

/-- Does the character list `hay` contain `needle` as a contiguous sublist? -/
def containsSubCh : List Char → List Char → Bool
  | needle, [] => needle.isEmpty
  | needle, c :: rest => isPrefixCh needle (c :: rest) || containsSubCh needle rest

/-- The Python substring test `needle in hay`. -/
def py_in (needle hay : String) : Bool := containsSubCh needle.data hay.data

/-- `install_dir = Path.home() / ".serena" / "language_servers" / "luau"`. -/
def install_dir (env : Env) : String := env.home ++ "/.serena/language_servers/luau"

/-- The ordered candidate list built by `_get_luau_lsp_path`: three common
locations, then platform-specific additions (Windows / Darwin / other). -/
def possible_paths (env : Env) : List String :=
  let base := [env.home ++ "/.serena/language_servers/luau/luau-lsp",
               env.home ++ "/.local/bin/luau-lsp",
               "/usr/local/bin/luau-lsp"]
  if env.system = "Windows" then
    base ++ [env.home ++ "/.serena/language_servers/luau/luau-lsp.exe",
             env.home ++ "/AppData/Local/luau-lsp/luau-lsp.exe"]
  else if env.system = "Darwin" then
    base ++ ["/opt/homebrew/bin/luau-lsp",
             env.home ++ "/.aftman/bin/luau-lsp"]
  else
    base ++ [env.home ++ "/.aftman/bin/luau-lsp"]

/-- `LuauLanguageServer._get_luau_lsp_path`: return the `shutil.which` result
if truthy, otherwise the first existing candidate path, otherwise `None`. -/
def get_luau_lsp_path (env : Env) : Option String :=
  if optTruthy env.which then env.which
  else (possible_paths env).find? env.pathExists

/-- Asset-name selection of `_download_luau_lsp` (`machineLower` is
`platform.machine().lower()`); unsupported combinations raise `RuntimeError`. -/
def asset_name (system machineLower : String) : Except String String :=
  if system = "Linux" then
    if machineLower = "x86_64" ∨ machineLower = "amd64" then
      .ok "luau-lsp-linux-x86_64.zip"
    else
      .error ("Unsupported Linux architecture: " ++ machineLower)
  else if system = "Darwin" then
    .ok "luau-lsp-macos.zip"
  else if system = "Windows" then
    .ok "luau-lsp-win64.zip"
  else
    .error ("Unsupported operating system: " ++ system)

/-- The release-asset URL `f"https://github.com/JohnnyMorganz/luau-lsp/releases/download/{version}/{asset_name}"`. -/
def download_url (version asset : String) : String :=
  "https://github.com/JohnnyMorganz/luau-lsp/releases/download/" ++ version ++ "/" ++ asset

/-- The binary filename searched for after extraction. -/
def binary_name (system : String) : String :=
  if system = "Windows" then "luau-lsp.exe" else "luau-lsp"

/-- `LuauLanguageServer._download_luau_lsp`.  Returns the ordered list of HTTP
GET URLs issued, paired with the result: the installed binary path, or the
`RuntimeError` / HTTP error message. -/
def download_luau_lsp (env : Env) : List String × Except String String :=
  match asset_name env.system (py_lower env.machine) with
  | .error e => ([], .error e)
  | .ok asset =>
    let url := download_url LUAU_LSP_VERSION asset
    if env.httpGetOk url then
      let bname := binary_name env.system
      let top := install_dir env ++ "/" ++ bname
      let binary_path :=
        if env.pathExists top then top
        else
          match env.rglobFirst with
          | some candidate => candidate
          | none => top
      if env.pathExists binary_path then ([url], .ok binary_path)
      else ([url], .error "Failed to find luau-lsp executable after extraction")
    else
      ([url], .error ("HTTP error downloading " ++ url))

/-- Cache path of the Roblox type definitions (`globalTypes.d.luau`). -/
def roblox_definitions_path (env : Env) : String :=
  install_dir env ++ "/globalTypes.d.luau"

/-- Cache path of the Roblox API docs (`en-us.json`). -/
def roblox_docs_path (env : Env) : String := install_dir env ++ "/en-us.json"

/-- Observable events of the auxiliary asset fetcher. -/
inductive FetchEv where
  | httpGet (url : String)
  | fileWrite (path : String)
deriving DecidableEq

/-- `LuauLanguageServer._download_roblox_definitions`: for each of the two
assets, return the cached path if present, otherwise attempt a timed fetch and
cache on success; any failure yields `none` for that asset (never raises).
Returns the ordered event trace paired with `(definitions_path, docs_path)`. -/
def download_roblox_definitions (env : Env) :
    List FetchEv × (Option String × Option String) :=
  let definitions_path := roblox_definitions_path env
  let docs_path := roblox_docs_path env
  let defsStep : List FetchEv × Option String :=
    if env.pathExists definitions_path then ([], some definitions_path)
    else if env.httpGetOk ROBLOX_TYPES_URL then
      ([.httpGet ROBLOX_TYPES_URL, .fileWrite definitions_path], some definitions_path)
    else ([.httpGet ROBLOX_TYPES_URL], none)
  let docsStep : List FetchEv × Option String :=
    if env.pathExists docs_path then ([], some docs_path)
    else if env.httpGetOk ROBLOX_DOCS_URL then
      ([.httpGet ROBLOX_DOCS_URL, .fileWrite docs_path], some docs_path)
    else ([.httpGet ROBLOX_DOCS_URL], none)
  (defsStep.1 ++ docsStep.1, (defsStep.2, docsStep.2))

/-- The branch of `_setup_runtime_dependency` taken when the locator result is
falsy: invoke the installer (counted), then fetch the auxiliary assets. -/
def setup_with_download (env : Env) :
    Nat × Except String (String × Option String × Option String) :=
  match (download_luau_lsp env).2 with
  | .error e => (1, .error e)
  | .ok p =>
    let dd := (download_roblox_definitions env).2
    (1, .ok (p, dd.1, dd.2))

/-- `LuauLanguageServer._setup_runtime_dependency`.  The `Nat` counts the
invocations of `_download_luau_lsp`. -/
def setup_runtime_dependency (env : Env) :
    Nat × Except String (String × Option String × Option String) :=
  match get_luau_lsp_path env with
  | some p =>
    if p == "" then setup_with_download env
    else
      let dd := (download_roblox_definitions env).2
      (0, .ok (p, dd.1, dd.2))
  | none => setup_with_download env

/-- Launch information handed to the base class (`ProcessLaunchInfo(cmd, cwd)`). -/
structure ProcessLaunchInfo where
  cmd : List String
  cwd : String
deriving DecidableEq

/-- The CLI command built in `__init__`:
`[path, "lsp"]`, then the optional definitions and docs arguments. -/
def build_cmd (luau_lsp_path : String) (definitions_path docs_path : Option String) :
    List String :=
  let cmd := [luau_lsp_path, "lsp"]
  let cmd :=
    if optTruthy definitions_path then
      cmd ++ ["--definitions:@roblox=" ++ definitions_path.getD ""]
    else cmd
  if optTruthy docs_path then cmd ++ ["--docs=" ++ docs_path.getD ""]
  else cmd

/-- `LuauLanguageServer.__init__`: resolve the runtime dependency, build the
command, and pass `ProcessLaunchInfo(cmd=cmd, cwd=repository_root_path)` to the
base class.  Errors of the installer propagate. -/
def luau_init (env : Env) (repository_root_path : String) :
    Except String ProcessLaunchInfo :=
  match (setup_runtime_dependency env).2 with
  | .error e => .error e
  | .ok (p, d, o) => .ok ⟨build_cmd p d o, repository_root_path⟩

/-- `threading.Event()` starts unset: initial value of `self.server_ready`. -/
def server_ready_init : Bool := false

/-- The `window_log_message` handler's effect on the `server_ready` flag:
set it when the message text (the `"message"` field, defaulting to `""`)
contains "workspace ready" or "initialized" case-insensitively. -/
def window_log_message (flag : Bool) (message : Option String) : Bool :=
  let message_text := message.getD ""
  if py_in "workspace ready" (py_lower message_text)
      || py_in "initialized" (py_lower message_text) then true
  else flag

/-- Operations of the class that touch the `server_ready` flag. -/
inductive ReadyOp where
  | logMessage (message : Option String)
  | startWaitBlock

/-- One step of the `server_ready` flag under an operation.  `startWaitBlock`
is the wait in `_start_server`: if the flag is already set the wait succeeds
and leaves it; otherwise the timeout fallback sets it. -/
def ready_step (flag : Bool) : ReadyOp → Bool
  | .logMessage m => window_log_message flag m
  | .startWaitBlock => if flag then flag else true

/-- Environment of `_start_server`: the keys present in
`init_response["capabilities"]`, and whether `server_ready.wait(timeout=5.0)`
returns within the timeout. -/
structure StartEnv where
  capabilities : List String
  readyWithinTimeout : Bool

/-- Observable events of `_start_server`, in program order. -/
inductive StartEv where
  | requestHandlerRegistered (method : String)
  | notificationHandlerRegistered (method : String)
  | serverStarted
  | initializeSent
  | initializedSent
  | warnedReadinessTimeout
deriving DecidableEq

/-- Events of `_start_server` up to and including sending `initialize`. -/
def start_server_pre : List StartEv :=
  [.requestHandlerRegistered "client/registerCapability",
   .requestHandlerRegistered "workspace/configuration",
   .notificationHandlerRegistered "window/logMessage",
   .notificationHandlerRegistered "$/progress",
   .notificationHandlerRegistered "textDocument/publishDiagnostics",
   .serverStarted,
   .initializeSent]

/-- The four capability keys asserted by `_start_server`, in assertion order. -/
def required_capabilities : List String :=
  ["textDocumentSync", "definitionProvider", "documentSymbolProvider",
   "referencesProvider"]

/-- `LuauLanguageServer._start_server`: register handlers, start the process,
send `initialize`, assert the four capability keys (an `AssertionError` aborts
before `initialized` is sent), send `initialized`, then wait up to 5 seconds
for readiness, proceeding with a warning (and setting the flag) on timeout.
Returns the event trace and the final `server_ready` value or the error. -/
def start_server (env : StartEnv) : List StartEv × Except String Bool :=
  if "textDocumentSync" ∈ env.capabilities then
    if "definitionProvider" ∈ env.capabilities then
      if "documentSymbolProvider" ∈ env.capabilities then
        if "referencesProvider" ∈ env.capabilities then
          let evs := start_server_pre ++ [.initializedSent]
          if env.readyWithinTimeout then (evs, .ok true)
          else (evs ++ [.warnedReadinessTimeout], .ok true)
        else (start_server_pre, .error "AssertionError: referencesProvider")
      else (start_server_pre, .error "AssertionError: documentSymbolProvider")
    else (start_server_pre, .error "AssertionError: definitionProvider")
  else (start_server_pre, .error "AssertionError: textDocumentSync")

/-- A Python value, as far as the `workspace/configuration` handler needs. -/
inductive PyVal where
  | pstr (s : String)
  | pnum (n : Int)
  | plist (xs : List PyVal)
  | pdict (fields : List (String × PyVal))

/-- Python `dict.get(key, default)` on an association list. -/
def dict_get (fields : List (String × PyVal)) (k : String) (dflt : PyVal) : PyVal :=
  match fields.lookup k with
  | some v => v
  | none => dflt

/-- Python iteration over a value: lists yield elements, strings yield their
characters, dicts their keys; numbers are not iterable (`TypeError`). -/
def py_iter : PyVal → Option (List PyVal)
  | .plist xs => some xs
  | .pstr s => some (s.data.map fun c => .pstr (String.mk [c]))
  | .pdict fields => some (fields.map fun kv => .pstr kv.1)
  | .pnum _ => none

/-- The `workspace_configuration_handler` registered by `_start_server`:
`return [{} for _ in params.get("items", [])]`.  `none` models the
`TypeError` raised when `items` is not iterable. -/
def workspace_configuration_handler (params : List (String × PyVal)) :
    Option PyVal :=
  let items := dict_get params "items" (.plist [])
  match py_iter items with
  | some xs => some (.plist (xs.map fun _ => .pdict []))
  | none => none

/-- The list contributed by one optional CLI argument: `[flag ++ value]` when
the value was resolved, `[]` otherwise. -/
def opt_arg (flag : String) : Option String → List String
  | some v => [flag ++ v]
  | none => []

/-! ## Example environments used by the witnesses -/

/-- A binary found on `PATH`; all other probes fail. -/
def env_which : Env :=
  ⟨some "/usr/bin/luau-lsp", "/h", "Linux", "x86_64",
   fun _ => false, fun _ => false, none⟩

/-- Nothing on `PATH`; only `/usr/local/bin/luau-lsp` exists. -/
def env_scan : Env :=
  ⟨none, "/h", "Linux", "x86_64",
   fun p => p == "/usr/local/bin/luau-lsp", fun _ => false, none⟩

/-- Nothing anywhere, all fetches fail. -/
def env_missing : Env :=
  ⟨none, "/h", "Linux", "x86_64", fun _ => false, fun _ => false, none⟩

/-- Linux on an ARM machine: unsupported install architecture. -/
def env_arm : Env :=
  ⟨none, "/h", "Linux", "aarch64", fun _ => false, fun _ => false, none⟩

/-- A cache-hit environment: binary on `PATH`, both auxiliary assets cached. -/
def env_cached : Env :=
  ⟨some "/usr/bin/luau-lsp", "/h", "Linux", "x86_64",
   fun _ => true, fun _ => false, none⟩

/-- All four required capability keys present, readiness within the timeout. -/
def start_env_ok : StartEnv :=
  ⟨["textDocumentSync", "definitionProvider", "documentSymbolProvider",
    "referencesProvider"], true⟩

/-- Only one capability key present. -/
def start_env_missing : StartEnv := ⟨["textDocumentSync"], true⟩

/-- All four capability keys present but the readiness signal never arrives. -/
def start_env_slow : StartEnv :=
  ⟨["textDocumentSync", "definitionProvider", "documentSymbolProvider",
    "referencesProvider"], false⟩

/-- A concrete `workspace/configuration` params dict with two items. -/
def params_ex : List (String × PyVal) :=
  [("items", PyVal.plist [PyVal.pnum 1, PyVal.pnum 2])]

/-! ## Helper lemmas -/

theorem data_append (a b : String) : (a ++ b).data = a.data ++ b.data := rfl

theorem append_right_ne_empty (a t : String) (ht : t.data ≠ []) : a ++ t ≠ "" := by
  intro h
  have hd := congrArg String.data h
  rw [data_append] at hd
  exact ht (List.append_eq_nil.mp hd).2

theorem mem_possible_paths_ne (env : Env) (p : String)
    (hp : p ∈ possible_paths env) : p ≠ "" := by
  unfold possible_paths at hp
  split at hp
  · simp only [List.mem_append, List.mem_cons, List.not_mem_nil, or_false] at hp
    rcases hp with (h | h | h) | h | h <;> subst h
    · exact append_right_ne_empty _ _ (by decide)
    · exact append_right_ne_empty _ _ (by decide)
    · decide
    · exact append_right_ne_empty _ _ (by decide)
    · exact append_right_ne_empty _ _ (by decide)
  split at hp
  · simp only [List.mem_append, List.mem_cons, List.not_mem_nil, or_false] at hp
    rcases hp with (h | h | h) | h | h <;> subst h
    · exact append_right_ne_empty _ _ (by decide)
    · exact append_right_ne_empty _ _ (by decide)
    · decide
    · decide
    · exact append_right_ne_empty _ _ (by decide)
  · simp only [List.mem_append, List.mem_cons, List.not_mem_nil, or_false] at hp
    rcases hp with (h | h | h) | h <;> subst h
    · exact append_right_ne_empty _ _ (by decide)
    · exact append_right_ne_empty _ _ (by decide)
    · decide
    · exact append_right_ne_empty _ _ (by decide)

theorem get_luau_lsp_path_ne_empty (env : Env) (s : String)
    (h : get_luau_lsp_path env = some s) : s ≠ "" := by
  unfold get_luau_lsp_path at h
  split at h
  · rename_i ht
    cases hw : env.which with
    | none => rw [hw] at ht; exact absurd ht (by simp [optTruthy])
    | some w =>
      rw [hw] at h ht
      cases h
      simpa [optTruthy] using ht
  · exact mem_possible_paths_ne env s (List.mem_of_find?_eq_some h)

theorem find?_split {α : Type} (p : α → Bool) :
    ∀ (l : List α) (x : α), l.find? p = some x →
      ∃ l₁ l₂, l = l₁ ++ x :: l₂ ∧ p x = true ∧ ∀ y ∈ l₁, p y = false := by
  intro l
  induction l with
  | nil => intro x h; simp at h
  | cons a t ih =>
    intro x h
    cases hpa : p a with
    | true =>
      rw [List.find?_cons_of_pos _ hpa] at h
      cases h
      exact ⟨[], t, rfl, hpa, by simp⟩
    | false =>
      rw [List.find?_cons_of_neg _ (by simp [hpa])] at h
      obtain ⟨l₁, l₂, hsplit, hx, hall⟩ := ih x h
      refine ⟨a :: l₁, l₂, by rw [hsplit]; rfl, hx, ?_⟩
      intro y hy
      rcases List.mem_cons.mp hy with rfl | hy'
      · exact hpa
      · exact hall y hy'

theorem download_url_pinned (asset : String) :
    download_url LUAU_LSP_VERSION asset =
      "https://github.com/JohnnyMorganz/luau-lsp/releases/download/1.57.1/" ++ asset := by
  unfold download_url LUAU_LSP_VERSION
  rw [show ("https://github.com/JohnnyMorganz/luau-lsp/releases/download/"
      ++ "1.57.1" ++ "/" : String)
    = "https://github.com/JohnnyMorganz/luau-lsp/releases/download/1.57.1/" from by decide]

/-! ## Claims -/

/-- C4: the locator `_get_luau_lsp_path` checks `shutil.which` first and
returns its result when non-empty; otherwise it scans the fixed OS-dependent
ordered candidate list and returns the first path that exists (existence is
the only check); if none exists it returns `None`. -/
theorem c4_locator_search_order (env : Env) :
    (∀ s, env.which = some s → s ≠ "" → get_luau_lsp_path env = some s) ∧
    (optTruthy env.which = false →
      get_luau_lsp_path env = (possible_paths env).find? env.pathExists ∧
      ((∀ p ∈ possible_paths env, env.pathExists p = false) →
        get_luau_lsp_path env = none) ∧
      (∀ p, get_luau_lsp_path env = some p →
        ∃ l₁ l₂, possible_paths env = l₁ ++ p :: l₂ ∧ env.pathExists p = true ∧
          ∀ q ∈ l₁, env.pathExists q = false)) := by
  constructor
  · intro s hs hne
    simp [get_luau_lsp_path, hs, optTruthy, hne]
  · intro hf
    have hloc : get_luau_lsp_path env = (possible_paths env).find? env.pathExists := by
      unfold get_luau_lsp_path
      rw [hf]
      simp
    refine ⟨hloc, ?_, ?_⟩
    · intro hall
      rw [hloc, List.find?_eq_none]
      intro x hx
      simp [hall x hx]
    · intro p hp
      rw [hloc] at hp
      exact find?_split _ _ _ hp

/-- Witness for C4 at concrete environments. -/
theorem c4_locator_search_order_witness :
    get_luau_lsp_path env_which = some "/usr/bin/luau-lsp" ∧
    get_luau_lsp_path env_scan = (possible_paths env_scan).find? env_scan.pathExists ∧
    get_luau_lsp_path env_missing = none := by
  refine ⟨?_, ?_, ?_⟩
  · exact (c4_locator_search_order env_which).1 "/usr/bin/luau-lsp" rfl (by decide)
  · exact ((c4_locator_search_order env_scan).2 (by decide)).1
  · exact ((c4_locator_search_order env_missing).2 (by decide)).2.1 (fun p _ => rfl)

/-- C2: for each supported OS family the installer selects exactly the
documented asset name (Linux x86_64/amd64 → `luau-lsp-linux-x86_64.zip`,
Darwin → `luau-lsp-macos.zip`, Windows → `luau-lsp-win64.zip`), the pinned
version is `1.57.1`, and every HTTP request the installer makes is exactly the
URL `https://github.com/JohnnyMorganz/luau-lsp/releases/download/1.57.1/<asset>`. -/
theorem c2_asset_and_url (env : Env) :
    ((env.system = "Linux" ∧
        (py_lower env.machine = "x86_64" ∨ py_lower env.machine = "amd64")) →
      asset_name env.system (py_lower env.machine) = .ok "luau-lsp-linux-x86_64.zip") ∧
    (env.system = "Darwin" →
      asset_name env.system (py_lower env.machine) = .ok "luau-lsp-macos.zip") ∧
    (env.system = "Windows" →
      asset_name env.system (py_lower env.machine) = .ok "luau-lsp-win64.zip") ∧
    LUAU_LSP_VERSION = "1.57.1" ∧
    (∀ asset, asset_name env.system (py_lower env.machine) = .ok asset →
      (download_luau_lsp env).1 =
        ["https://github.com/JohnnyMorganz/luau-lsp/releases/download/1.57.1/" ++ asset]) := by
  refine ⟨?_, ?_, ?_, rfl, ?_⟩
  · rintro ⟨h1, h2⟩
    unfold asset_name
    rw [h1, if_pos rfl, if_pos h2]
  · intro h
    unfold asset_name
    rw [h, if_neg (by decide), if_pos rfl]
  · intro h
    unfold asset_name
    rw [h, if_neg (by decide), if_neg (by decide), if_pos rfl]
  · intro asset h
    unfold download_luau_lsp
    rw [h]
    simp only [download_url_pinned]
    (repeat' split) <;> rfl

/-- Witness for C2 on a Linux x86_64 environment. -/
theorem c2_asset_and_url_witness :
    asset_name env_which.system (py_lower env_which.machine) =
      .ok "luau-lsp-linux-x86_64.zip" ∧
    (download_luau_lsp env_which).1 =
      ["https://github.com/JohnnyMorganz/luau-lsp/releases/download/1.57.1/"
        ++ "luau-lsp-linux-x86_64.zip"] := by
  refine ⟨(c2_asset_and_url env_which).1 ⟨rfl, by decide⟩, ?_⟩
  exact (c2_asset_and_url env_which).2.2.2.2 _
    ((c2_asset_and_url env_which).1 ⟨rfl, by decide⟩)

/-- C3: on Linux with a non-x86_64/amd64 architecture, or on any OS other than
Linux/Darwin/Windows, `_download_luau_lsp` raises a `RuntimeError` before
issuing any HTTP request, and when the installer is invoked (locator found
nothing) that error propagates through `_setup_runtime_dependency` to
`__init__`. -/
theorem c3_unsupported_fatal_no_http (env : Env) (repo : String)
    (h : (env.system = "Linux" ∧ py_lower env.machine ≠ "x86_64" ∧
            py_lower env.machine ≠ "amd64")
       ∨ (env.system ≠ "Linux" ∧ env.system ≠ "Darwin" ∧ env.system ≠ "Windows")) :
    (download_luau_lsp env).1 = [] ∧
    (∃ e, (download_luau_lsp env).2 = Except.error e) ∧
    (get_luau_lsp_path env = none →
      ∃ e, (download_luau_lsp env).2 = Except.error e ∧
        (setup_runtime_dependency env).2 = Except.error e ∧
        luau_init env repo = Except.error e) := by
  have herr : ∃ e, asset_name env.system (py_lower env.machine) = Except.error e := by
    rcases h with ⟨h1, h2, h3⟩ | ⟨h1, h2, h3⟩
    · exact ⟨"Unsupported Linux architecture: " ++ py_lower env.machine, by
        unfold asset_name
        rw [h1, if_pos rfl, if_neg (by rintro (hc | hc); exacts [h2 hc, h3 hc])]⟩
    · exact ⟨"Unsupported operating system: " ++ env.system, by
        unfold asset_name
        rw [if_neg h1, if_neg h2, if_neg h3]⟩
  obtain ⟨e, he⟩ := herr
  have hdl : download_luau_lsp env = ([], Except.error e) := by
    unfold download_luau_lsp
    rw [he]
  refine ⟨by rw [hdl], ⟨e, by rw [hdl]⟩, ?_⟩
  intro hloc
  have hsetup : (setup_runtime_dependency env).2 = Except.error e := by
    unfold setup_runtime_dependency
    rw [hloc]
    unfold setup_with_download
    rw [hdl]
  refine ⟨e, by rw [hdl], hsetup, ?_⟩
  unfold luau_init
  rw [hsetup]

/-- Witness for C3 on Linux/aarch64 with nothing installed. -/
theorem c3_unsupported_fatal_no_http_witness :
    (download_luau_lsp env_arm).1 = [] ∧
    (∃ e, (download_luau_lsp env_arm).2 = Except.error e) ∧
    (∃ e, (download_luau_lsp env_arm).2 = Except.error e ∧
      (setup_runtime_dependency env_arm).2 = Except.error e ∧
      luau_init env_arm "/repo" = Except.error e) := by
  have h := c3_unsupported_fatal_no_http env_arm "/repo"
    (Or.inl ⟨rfl, by decide, by decide⟩)
  exact ⟨h.1, h.2.1, h.2.2 rfl⟩

theorem setup_with_download_count (env : Env) : (setup_with_download env).1 = 1 := by
  unfold setup_with_download
  cases hd : (download_luau_lsp env).2 <;> simp [hd]

theorem setup_runtime_dependency_of_some (env : Env) (p : String)
    (hp : get_luau_lsp_path env = some p) :
    setup_runtime_dependency env =
      (0, .ok (p, (download_roblox_definitions env).2.1,
                  (download_roblox_definitions env).2.2)) := by
  have hne := get_luau_lsp_path_ne_empty env p hp
  unfold setup_runtime_dependency
  rw [hp]
  simp [hne]

theorem setup_runtime_dependency_of_none (env : Env)
    (h : get_luau_lsp_path env = none) :
    setup_runtime_dependency env = setup_with_download env := by
  unfold setup_runtime_dependency
  rw [h]

theorem luau_init_of_ok (env : Env) (repo p : String) (d o : Option String)
    (h : (setup_runtime_dependency env).2 = Except.ok (p, d, o)) :
    luau_init env repo = Except.ok ⟨build_cmd p d o, repo⟩ := by
  unfold luau_init
  rw [h]

theorem build_cmd_head (p : String) (d o : Option String) :
    (build_cmd p d o).head? = some p := by
  unfold build_cmd
  cases hd : optTruthy d <;> cases ho : optTruthy o <;> simp [hd, ho]

theorem setup_ok_path_origin (env : Env) (p : String) (d o : Option String)
    (h : (setup_runtime_dependency env).2 = Except.ok (p, d, o)) :
    get_luau_lsp_path env = some p ∨ (download_luau_lsp env).2 = Except.ok p := by
  cases hloc : get_luau_lsp_path env with
  | some q =>
    rw [setup_runtime_dependency_of_some env q hloc] at h
    simp only [Except.ok.injEq, Prod.mk.injEq] at h
    exact Or.inl (by rw [h.1])
  | none =>
    rw [setup_runtime_dependency_of_none env hloc] at h
    unfold setup_with_download at h
    cases hd : (download_luau_lsp env).2 with
    | error e => rw [hd] at h; simp at h
    | ok q =>
      rw [hd] at h
      simp only [Except.ok.injEq, Prod.mk.injEq] at h
      exact Or.inr (by rw [h.1])

theorem setup_ok_defs_origin (env : Env) (p : String) (d o : Option String)
    (h : (setup_runtime_dependency env).2 = Except.ok (p, d, o)) :
    d = (download_roblox_definitions env).2.1 ∧
    o = (download_roblox_definitions env).2.2 := by
  cases hloc : get_luau_lsp_path env with
  | some q =>
    rw [setup_runtime_dependency_of_some env q hloc] at h
    simp only [Except.ok.injEq, Prod.mk.injEq] at h
    exact ⟨h.2.1.symm, h.2.2.symm⟩
  | none =>
    rw [setup_runtime_dependency_of_none env hloc] at h
    unfold setup_with_download at h
    cases hd : (download_luau_lsp env).2 with
    | error e => rw [hd] at h; simp at h
    | ok q =>
      rw [hd] at h
      simp only [Except.ok.injEq, Prod.mk.injEq] at h
      exact ⟨h.2.1.symm, h.2.2.symm⟩

theorem roblox_defs_cases (env : Env) :
    ((download_roblox_definitions env).2.1 = none ∨
      (download_roblox_definitions env).2.1 = some (roblox_definitions_path env)) ∧
    ((download_roblox_definitions env).2.2 = none ∨
      (download_roblox_definitions env).2.2 = some (roblox_docs_path env)) := by
  unfold download_roblox_definitions
  refine ⟨?_, ?_⟩ <;> · dsimp only
                        (repeat' split) <;> simp

theorem roblox_definitions_path_ne (env : Env) : roblox_definitions_path env ≠ "" := by
  unfold roblox_definitions_path
  exact append_right_ne_empty _ _ (by decide)

theorem roblox_docs_path_ne (env : Env) : roblox_docs_path env ≠ "" := by
  unfold roblox_docs_path
  exact append_right_ne_empty _ _ (by decide)

theorem setup_ok_opts_ne (env : Env) (p : String) (d o : Option String)
    (h : (setup_runtime_dependency env).2 = Except.ok (p, d, o)) :
    (∀ dp, d = some dp → dp ≠ "") ∧ (∀ op, o = some op → op ≠ "") := by
  obtain ⟨hd, ho⟩ := setup_ok_defs_origin env p d o h
  constructor
  · intro dp hdp
    rcases (roblox_defs_cases env).1 with hc | hc
    · rw [hd, hc] at hdp; cases hdp
    · rw [hd, hc] at hdp
      cases hdp
      exact roblox_definitions_path_ne env
  · intro op hop
    rcases (roblox_defs_cases env).2 with hc | hc
    · rw [ho, hc] at hop; cases hop
    · rw [ho, hc] at hop
      cases hop
      exact roblox_docs_path_ne env

theorem build_cmd_eq (p : String) (d o : Option String)
    (hd : ∀ dp, d = some dp → dp ≠ "") (ho : ∀ op, o = some op → op ≠ "") :
    build_cmd p d o = [p, "lsp"]
      ++ opt_arg "--definitions:@roblox=" d ++ opt_arg "--docs=" o := by
  unfold build_cmd
  cases d with
  | none =>
    cases o with
    | none => rfl
    | some op => simp [optTruthy, opt_arg, ho op rfl]
  | some dp =>
    cases o with
    | none => simp [optTruthy, opt_arg, hd dp rfl]
    | some op => simp [optTruthy, opt_arg, hd dp rfl, ho op rfl]

/-- C1: the installer `_download_luau_lsp` is invoked by
`_setup_runtime_dependency` iff the locator returns no path, it is invoked at
most once, and the path `_setup_runtime_dependency` returns (the locator's or
the installer's) is verbatim the first element of the launch command the
constructor builds. -/
theorem c1_installer_invocation (env : Env) (repo : String) :
    ((setup_runtime_dependency env).1 = 1 ↔ get_luau_lsp_path env = none) ∧
    (setup_runtime_dependency env).1 ≤ 1 ∧
    (∀ p d o, (setup_runtime_dependency env).2 = Except.ok (p, d, o) →
      ∃ info, luau_init env repo = Except.ok info ∧ info.cmd.head? = some p ∧
        (get_luau_lsp_path env = some p ∨ (download_luau_lsp env).2 = Except.ok p)) := by
  have hcount : (setup_runtime_dependency env).1 = 1 ↔ get_luau_lsp_path env = none := by
    cases hloc : get_luau_lsp_path env with
    | some q =>
      rw [setup_runtime_dependency_of_some env q hloc]
      simp
    | none =>
      rw [setup_runtime_dependency_of_none env hloc, setup_with_download_count]
      simp
  have hle : (setup_runtime_dependency env).1 ≤ 1 := by
    cases hloc : get_luau_lsp_path env with
    | some q =>
      rw [setup_runtime_dependency_of_some env q hloc]
      simp
    | none =>
      rw [setup_runtime_dependency_of_none env hloc, setup_with_download_count]
  refine ⟨hcount, hle, ?_⟩
  intro p d o hok
  exact ⟨⟨build_cmd p d o, repo⟩, luau_init_of_ok env repo p d o hok,
    build_cmd_head p d o, setup_ok_path_origin env p d o hok⟩

/-- Witness for C1: a binary on `PATH` is used verbatim as the command head. -/
theorem c1_installer_invocation_witness :
    ∃ info, luau_init env_which "/repo" = Except.ok info ∧
      info.cmd.head? = some "/usr/bin/luau-lsp" ∧
      (get_luau_lsp_path env_which = some "/usr/bin/luau-lsp" ∨
        (download_luau_lsp env_which).2 = Except.ok "/usr/bin/luau-lsp") :=
  (c1_installer_invocation env_which "/repo").2.2 "/usr/bin/luau-lsp" none none rfl

/-- C8: the launch command is exactly the resolved binary path, `"lsp"`, then
`--definitions:@roblox=<path>` iff a definitions path was resolved, then
`--docs=<path>` iff a docs path was resolved, in that order, with the working
directory equal to the repository root. -/
theorem c8_launch_command (env : Env) (repo p : String) (d o : Option String)
    (h : (setup_runtime_dependency env).2 = Except.ok (p, d, o)) :
    luau_init env repo = Except.ok
      ⟨[p, "lsp"]
        ++ opt_arg "--definitions:@roblox=" d ++ opt_arg "--docs=" o, repo⟩ := by
  rw [luau_init_of_ok env repo p d o h]
  obtain ⟨hd, ho⟩ := setup_ok_opts_ne env p d o h
  rw [build_cmd_eq p d o hd ho]

/-- Witness for C8 with both optional assets resolved. -/
theorem c8_launch_command_witness :
    luau_init env_cached "/repo" = Except.ok
      ⟨["/usr/bin/luau-lsp", "lsp",
        "--definitions:@roblox=" ++ "/h/.serena/language_servers/luau/globalTypes.d.luau",
        "--docs=" ++ "/h/.serena/language_servers/luau/en-us.json"], "/repo"⟩ := by
  have h := c8_launch_command env_cached "/repo" "/usr/bin/luau-lsp"
    (some "/h/.serena/language_servers/luau/globalTypes.d.luau")
    (some "/h/.serena/language_servers/luau/en-us.json") rfl
  simpa [opt_arg] using h

/-- C5: each auxiliary asset is returned from cache without any HTTP fetch
when its cache file exists; otherwise a timed fetch is attempted, caching
(writing the file) and returning the path on success, and returning `none`
without raising on failure; a failure of one asset never prevents the attempt
for the other (the docs conjuncts hold for every outcome of the definitions
fetch, and conversely). -/
theorem c5_roblox_asset_caching (env : Env) :
    (env.pathExists (roblox_definitions_path env) = true →
      FetchEv.httpGet ROBLOX_TYPES_URL ∉ (download_roblox_definitions env).1 ∧
      (download_roblox_definitions env).2.1 = some (roblox_definitions_path env)) ∧
    (env.pathExists (roblox_definitions_path env) = false →
      FetchEv.httpGet ROBLOX_TYPES_URL ∈ (download_roblox_definitions env).1 ∧
      (env.httpGetOk ROBLOX_TYPES_URL = true →
        (download_roblox_definitions env).2.1 = some (roblox_definitions_path env) ∧
        FetchEv.fileWrite (roblox_definitions_path env) ∈
          (download_roblox_definitions env).1) ∧
      (env.httpGetOk ROBLOX_TYPES_URL = false →
        (download_roblox_definitions env).2.1 = none)) ∧
    (env.pathExists (roblox_docs_path env) = true →
      FetchEv.httpGet ROBLOX_DOCS_URL ∉ (download_roblox_definitions env).1 ∧
      (download_roblox_definitions env).2.2 = some (roblox_docs_path env)) ∧
    (env.pathExists (roblox_docs_path env) = false →
      FetchEv.httpGet ROBLOX_DOCS_URL ∈ (download_roblox_definitions env).1 ∧
      (env.httpGetOk ROBLOX_DOCS_URL = true →
        (download_roblox_definitions env).2.2 = some (roblox_docs_path env) ∧
        FetchEv.fileWrite (roblox_docs_path env) ∈
          (download_roblox_definitions env).1) ∧
      (env.httpGetOk ROBLOX_DOCS_URL = false →
        (download_roblox_definitions env).2.2 = none)) := by
  have hne : ROBLOX_TYPES_URL ≠ ROBLOX_DOCS_URL := by decide
  have hne' : ROBLOX_DOCS_URL ≠ ROBLOX_TYPES_URL := by decide
  refine ⟨?_, ?_, ?_, ?_⟩
  · intro h1
    cases h3 : env.pathExists (roblox_docs_path env) <;>
      cases h4 : env.httpGetOk ROBLOX_DOCS_URL <;>
        simp [download_roblox_definitions, h1, h3, h4, hne, hne']
  · intro h1
    cases h2 : env.httpGetOk ROBLOX_TYPES_URL <;>
      cases h3 : env.pathExists (roblox_docs_path env) <;>
        cases h4 : env.httpGetOk ROBLOX_DOCS_URL <;>
          simp [download_roblox_definitions, h1, h2, h3, h4]
  · intro h3
    cases h1 : env.pathExists (roblox_definitions_path env) <;>
      cases h2 : env.httpGetOk ROBLOX_TYPES_URL <;>
        simp [download_roblox_definitions, h1, h2, h3, hne, hne']
  · intro h3
    cases h1 : env.pathExists (roblox_definitions_path env) <;>
      cases h2 : env.httpGetOk ROBLOX_TYPES_URL <;>
        cases h4 : env.httpGetOk ROBLOX_DOCS_URL <;>
          simp [download_roblox_definitions, h1, h2, h3, h4]

/-- Witness for C5: definitions cached, docs fetch fails. -/
theorem c5_roblox_asset_caching_witness :
    (FetchEv.httpGet ROBLOX_TYPES_URL ∉ (download_roblox_definitions env_cached).1 ∧
      (download_roblox_definitions env_cached).2.1 =
        some (roblox_definitions_path env_cached)) ∧
    (FetchEv.httpGet ROBLOX_DOCS_URL ∈ (download_roblox_definitions env_missing).1 ∧
      (download_roblox_definitions env_missing).2.2 = none) := by
  constructor
  · exact (c5_roblox_asset_caching env_cached).1 rfl
  · have h := (c5_roblox_asset_caching env_missing).2.2.2 rfl
    exact ⟨h.1, h.2.2 rfl⟩

/-- C6: `_start_server` aborts with an assertion failure before sending
`initialized` when any of the four required capability keys is missing from
the `initialize` response; when all four are present the assertions pass and
`initialized` is sent. -/
theorem c6_capability_assertions (env : StartEnv) :
    (("textDocumentSync" ∉ env.capabilities ∨
      "definitionProvider" ∉ env.capabilities ∨
      "documentSymbolProvider" ∉ env.capabilities ∨
      "referencesProvider" ∉ env.capabilities) →
      (∃ e, (start_server env).2 = Except.error e) ∧
      StartEv.initializedSent ∉ (start_server env).1) ∧
    ((∀ c ∈ required_capabilities, c ∈ env.capabilities) →
      StartEv.initializedSent ∈ (start_server env).1 ∧
      ∃ b, (start_server env).2 = Except.ok b) := by
  constructor
  · intro hmiss
    by_cases h1 : "textDocumentSync" ∈ env.capabilities <;>
    by_cases h2 : "definitionProvider" ∈ env.capabilities <;>
    by_cases h3 : "documentSymbolProvider" ∈ env.capabilities <;>
    by_cases h4 : "referencesProvider" ∈ env.capabilities <;>
      first
      | (rcases hmiss with h | h | h | h <;> contradiction)
      | simp [start_server, h1, h2, h3, h4, start_server_pre]
  · intro hall
    have h1 := hall "textDocumentSync" (by simp [required_capabilities])
    have h2 := hall "definitionProvider" (by simp [required_capabilities])
    have h3 := hall "documentSymbolProvider" (by simp [required_capabilities])
    have h4 := hall "referencesProvider" (by simp [required_capabilities])
    cases hr : env.readyWithinTimeout <;>
      simp [start_server, h1, h2, h3, h4, start_server_pre, hr]

/-- Witness for C6: a missing key aborts; the full set passes. -/
theorem c6_capability_assertions_witness :
    ((∃ e, (start_server start_env_missing).2 = Except.error e) ∧
      StartEv.initializedSent ∉ (start_server start_env_missing).1) ∧
    (StartEv.initializedSent ∈ (start_server start_env_ok).1 ∧
      ∃ b, (start_server start_env_ok).2 = Except.ok b) :=
  ⟨(c6_capability_assertions start_env_missing).1 (Or.inr (Or.inl (by decide))),
   (c6_capability_assertions start_env_ok).2 (by decide)⟩

/-- C7: after the four assertions pass, `_start_server` returns normally
whether or not the readiness notification arrives within the 5-second timeout;
on timeout it logs a warning and proceeds rather than raising. -/
theorem c7_readiness_timeout_nonfatal (env : StartEnv)
    (hall : ∀ c ∈ required_capabilities, c ∈ env.capabilities) :
    (∃ b, (start_server env).2 = Except.ok b) ∧
    (env.readyWithinTimeout = false →
      StartEv.warnedReadinessTimeout ∈ (start_server env).1 ∧
      (start_server env).2 = Except.ok true) ∧
    (env.readyWithinTimeout = true →
      StartEv.warnedReadinessTimeout ∉ (start_server env).1) := by
  have h1 := hall "textDocumentSync" (by simp [required_capabilities])
  have h2 := hall "definitionProvider" (by simp [required_capabilities])
  have h3 := hall "documentSymbolProvider" (by simp [required_capabilities])
  have h4 := hall "referencesProvider" (by simp [required_capabilities])
  refine ⟨?_, ?_, ?_⟩
  · cases hr : env.readyWithinTimeout <;>
      simp [start_server, h1, h2, h3, h4, hr]
  · intro hr
    simp [start_server, h1, h2, h3, h4, hr, start_server_pre]
  · intro hr
    simp [start_server, h1, h2, h3, h4, hr, start_server_pre]

/-- Witness for C7: all capabilities present, readiness never arrives. -/
theorem c7_readiness_timeout_nonfatal_witness :
    (∃ b, (start_server start_env_slow).2 = Except.ok b) ∧
    ((start_env_slow).readyWithinTimeout = false →
      StartEv.warnedReadinessTimeout ∈ (start_server start_env_slow).1 ∧
      (start_server start_env_slow).2 = Except.ok true) ∧
    ((start_env_slow).readyWithinTimeout = true →
      StartEv.warnedReadinessTimeout ∉ (start_server start_env_slow).1) :=
  c7_readiness_timeout_nonfatal start_env_slow (by decide)

theorem ready_step_true (op : ReadyOp) : ready_step true op = true := by
  cases op with
  | logMessage m =>
    simp only [ready_step, window_log_message]
    split <;> rfl
  | startWaitBlock => rfl

/-- C9: the readiness flag starts unset and only ever transitions from unset
to set: any operation on a set flag leaves it set (nothing clears it), the
log-message handler sets an unset flag exactly when the message text contains
"workspace ready" or "initialized" case-insensitively, and the wait block of
`_start_server` (readiness or the timeout fallback) always leaves it set. -/
theorem c9_ready_flag_monotone :
    server_ready_init = false ∧
    (∀ op, ready_step true op = true) ∧
    (∀ flag op, ready_step flag op = false → flag = false) ∧
    (∀ m, ready_step false (ReadyOp.logMessage m) =
      (py_in "workspace ready" (py_lower (m.getD "")) ||
       py_in "initialized" (py_lower (m.getD "")))) ∧
    ready_step false ReadyOp.startWaitBlock = true := by
  refine ⟨rfl, ready_step_true, ?_, ?_, rfl⟩
  · intro flag op h
    cases flag
    · rfl
    · rw [ready_step_true op] at h
      exact h
  · intro m
    cases hb : (py_in "workspace ready" (py_lower (m.getD "")) ||
        py_in "initialized" (py_lower (m.getD ""))) <;>
      simp [ready_step, window_log_message, hb]

/-- Witness for C9 at concrete messages. -/
theorem c9_ready_flag_monotone_witness :
    (false : Bool) = false ∧
    ready_step false (ReadyOp.logMessage (some "Luau: workspace ready")) = true := by
  constructor
  · exact c9_ready_flag_monotone.2.2.1 false
      (ReadyOp.logMessage (some "starting up")) (by decide)
  · exact (c9_ready_flag_monotone.2.2.2.1 (some "Luau: workspace ready")).trans
      (by decide)

theorem map_const_pdict (xs : List PyVal) :
    xs.map (fun _ => PyVal.pdict []) = List.replicate xs.length (PyVal.pdict []) := by
  induction xs with
  | nil => rfl
  | cons a t ih => simp [List.replicate, ih]

/-- C10: for every params dict whose `items` key holds a list, the
`workspace/configuration` handler returns a list of empty dicts of the same
length, and the empty list when the key is absent — never any requested
configuration value. -/
theorem c10_workspace_configuration (params : List (String × PyVal)) :
    (∀ xs, params.lookup "items" = some (PyVal.plist xs) →
      workspace_configuration_handler params =
        some (PyVal.plist (List.replicate xs.length (PyVal.pdict [])))) ∧
    (params.lookup "items" = none →
      workspace_configuration_handler params = some (PyVal.plist [])) := by
  constructor
  · intro xs h
    unfold workspace_configuration_handler dict_get
    rw [h]
    simp [py_iter, map_const_pdict]
  · intro h
    unfold workspace_configuration_handler dict_get
    rw [h]
    simp [py_iter]

/-- Witness for C10: two requested items yield two empty dicts. -/
theorem c10_workspace_configuration_witness :
    workspace_configuration_handler params_ex =
      some (PyVal.plist (List.replicate 2 (PyVal.pdict []))) :=
  (c10_workspace_configuration params_ex).1 [PyVal.pnum 1, PyVal.pnum 2] rfl

end LuauLsp
